import Mathlib

/-!
Verification development for the pg_background extension
(`src/pg_background.c`): a shallow embedding of the worker registry, the
v1/v2 SQL-facing operations, the result-protocol decode loop, the cancel
machinery with grace periods and exponential backoff, the launcher's
admission checks, and progress reporting, together with theorems settling
the specification claims.

Conventions of the embedding:
* PostgreSQL error levels are numeric: ERROR = 21, FATAL = 22.
* Error conditions raised by `ereport`/`elog` become `PgError` values
  carrying the errcode, the level and the primary message text.
* Machine integers are modelled as `Int`/`Nat`; the C cast
  `(uint64) x` of a signed 64-bit value is `uint64_of_int`.
* External collaborators (shm_mq, DSM, the bgworker supervisor, clocks)
  are oracle parameters; the session-local hash table `worker_hash` is a
  list of `WorkerInfo` keyed by pid.
-/

namespace PgBg

/-- PostgreSQL elevel constant ERROR (21). -/
def ERROR_LEVEL : Nat := 21

/-- PostgreSQL elevel constant FATAL (22). -/
def FATAL_LEVEL : Nat := 22

/-- The errcodes used by pg_background.c (plus internal_error for plain
`elog(ERROR, ...)` sites, whose errcode defaults to XX000). -/
inductive ErrCode
  | undefinedObject
  | objectNotInPrerequisiteState
  | insufficientPrivilege
  | invalidParameterValue
  | configurationLimitExceeded
  | insufficientResources
  | outOfMemory
  | featureNotSupported
  | connectionFailure
  | datatypeMismatch
  | protocolViolation
  | duplicateObject
  | internalError
  deriving DecidableEq, Repr

/-- An error raised through ereport/elog: errcode, elevel, primary message. -/
structure PgError where
  code : ErrCode
  elevel : Nat
  message : String
  deriving DecidableEq, Repr

/-- Build an ERROR-level `PgError`. -/
def err (c : ErrCode) (m : String) : PgError := ⟨c, ERROR_LEVEL, m⟩

/-- The C cast `(uint64) v` of a signed 64-bit value (two's complement). -/
def uint64_of_int (i : Int) : Nat := (i % (2 ^ 64 : Int)).toNat

/-- `pg_background_worker_info`: per-worker tracking state in the
session-local hash table.  Pointer-valued fields (`seg`, `handle`) are
modelled by presence flags; `responseq` lives in the stream oracle. -/
structure WorkerInfo where
  pid : Int
  current_user_id : Nat
  cookie : Nat
  hasSeg : Bool
  hasHandle : Bool
  consumed : Bool
  mapping_pinned : Bool
  result_disabled : Bool
  canceled : Bool
  queue_size : Int
  sql_preview : String
  last_error : Option String
  deriving DecidableEq, Repr

/-- The session-local `worker_hash`, keyed by `pid`. -/
abbrev Registry := List WorkerInfo

/-- `find_worker_info`: look up worker info by PID. -/
def find_worker_info (reg : Registry) (pid : Int) : Option WorkerInfo :=
  reg.find? (fun i => i.pid == pid)

/-- Apply `f` to the entry (entries) with the given pid. -/
def registry_update (reg : Registry) (pid : Int) (f : WorkerInfo → WorkerInfo) : Registry :=
  reg.map (fun i => if i.pid == pid then f i else i)

/-- Remove the entry with the given pid (the effect of
`cleanup_worker_info` firing on DSM detach). -/
def registry_erase (reg : Registry) (pid : Int) : Registry :=
  reg.filter (fun i => i.pid != pid)

/-- The caller's identity: user oid plus the `has_privs_of_role`
predicate supplied by the identity provider. -/
structure Caller where
  user_id : Nat
  hasPrivsOf : Nat → Bool

/- Error message texts, taken verbatim from the ereport format strings. -/

/-- "PID %d is not attached to this session" -/
def msg_not_attached (pid : Int) : String := s!"PID {pid} is not attached to this session"

/-- "PID %d is not attached to this session (cookie mismatch)" (result_v2). -/
def msg_cookie_mismatch_result (pid : Int) : String :=
  msg_not_attached pid ++ " (cookie mismatch)"

/-- "cookie mismatch for PID %d" (detach_v2 / cancel_v2 / wait_v2). -/
def msg_cookie_mismatch (pid : Int) : String := s!"cookie mismatch for PID {pid}"

/-- "results for PID %d have already been consumed" -/
def msg_already_consumed (pid : Int) : String :=
  s!"results for PID {pid} have already been consumed"

/-- "results are disabled for PID %d (submitted via submit_v2)" -/
def msg_result_disabled (pid : Int) : String :=
  s!"results are disabled for PID {pid} (submitted via submit_v2)"

/-- "lost connection to worker process with PID %d" -/
def msg_lost_connection (pid : Int) : String :=
  s!"lost connection to worker process with PID {pid}"

/-- The no-result-set datatype mismatch message. -/
def msg_no_result_set : String :=
  "remote query did not return a result set, but result rowtype is not a single text column"

/-- The rowtype mismatch message shared by the RowDescription checks. -/
def msg_rowtype_mismatch : String :=
  "remote query result rowtype does not match the specified FROM clause rowtype"

/-- "background worker with PID \"%d\" already exists" (FATAL). -/
def msg_worker_exists (pid : Int) : String :=
  s!"background worker with PID \x22{pid}\x22 already exists"

/-- `check_rights` failure: "permission denied for background worker with PID \"%d\"". -/
def perm_denied_error (pid : Int) : PgError :=
  err .insufficientPrivilege s!"permission denied for background worker with PID \x22{pid}\x22"

/-! ## Result-protocol decode (pg_background_result and helpers) -/

/-- The type oid of `text` (TEXTOID). -/
def TEXTOID : Nat := 25

/-- MaxTupleAttributeNumber: upper bound on RowDescription column counts. -/
def MaxTupleAttributeNumber : Nat := 1664

/-- A remote error/notice as parsed by `pq_parse_errornotice`. -/
structure RemoteErr where
  elevel : Nat
  code : ErrCode
  message : String
  deriving DecidableEq, Repr

/-- One protocol message read from the response queue, by message type byte:
'E'/'N' error or notice, 'A' async notify, 'T' RowDescription (the column
type oids), 'D' DataRow (per column: null or the binary payload bytes),
'C' CommandComplete, 'G'/'H'/'W' COPY, 'Z' ReadyForQuery, anything else. -/
inductive Frame
  | errorFrame (e : RemoteErr)
  | asyncFrame (payload : String)
  | schemaFrame (cols : List Nat)
  | rowFrame (cells : List (Option (List Nat)))
  | commandDone (tag : String)
  | copyFrame
  | ready
  | unknownFrame (c : Char)
  deriving DecidableEq, Repr

/-- A row produced to the caller: either a decoded DataRow, or a synthetic
single-text-column row carrying a command tag. -/
inductive OutRow
  | data (cells : List (Option (List Nat)))
  | tag (t : String)
  deriving DecidableEq, Repr

/-- `pg_background_result_state`: state across the decode loop. -/
structure ResultState where
  has_row_description : Bool := false
  command_tags : List String := []
  complete : Bool := false
  stored_error : Option String := none
  deriving DecidableEq, Repr

/-- Initial `pg_background_result_state` (palloc0). -/
def initResultState : ResultState := {}

/-- Outcome of draining the queue: the final loop state, the DataRow
tuples produced, and the error that aborted the loop, if any. -/
structure StreamOutcome where
  st : ResultState
  rows : List OutRow
  err : Option PgError
  deriving Repr

/-- One column check of the 'T' handler: a remote column with a binary
receive function must have exactly the expected type; one without may
fall back to an expected `text` column. -/
def col_compatible (recv : Nat → Bool) (remote expected : Nat) : Bool :=
  if recv remote then remote == expected else expected == TEXTOID

/-- The 'T' (RowDescription) handler of `pg_background_result`: enforce a
single Schema frame, bounds-check the column count, and enforce schema
agreement with the caller's tuple descriptor. -/
def handle_schema (tupdesc : List Nat) (recv : Nat → Bool) (st : ResultState)
    (cols : List Nat) : Except PgError ResultState :=
  if st.has_row_description then
    .error (err .internalError "multiple RowDescription messages")
  else if MaxTupleAttributeNumber < cols.length then
    .error (err .protocolViolation s!"invalid column count in RowDescription: {cols.length}")
  else if cols.length ≠ tupdesc.length then
    .error (err .datatypeMismatch msg_rowtype_mismatch)
  else if (cols.zip tupdesc).all (fun p => col_compatible recv p.1 p.2) then
    .ok { st with has_row_description := true }
  else
    .error (err .datatypeMismatch msg_rowtype_mismatch)

/-- `form_result_tuple`: decode a 'D' (DataRow) frame.  A DataRow must be
preceded by a RowDescription and must have exactly the expected number of
columns (which, by `handle_schema`, equals the announced Schema count). -/
def form_result_tuple (st : ResultState) (tupdescNatts : Nat)
    (cells : List (Option (List Nat))) : Except PgError OutRow :=
  if !st.has_row_description then
    .error (err .internalError "DataRow not preceded by RowDescription")
  else if cells.length ≠ tupdescNatts then
    .error (err .internalError "malformed DataRow")
  else
    .ok (.data cells)

/-- The receive loop of `pg_background_result`: process frames in order
until the queue is drained (peer gone) or an error aborts the loop.
Notices ('N' with elevel < ERROR) are surfaced and the loop continues;
errors (elevel ≥ ERROR, capped at ERROR) abort it.  Both store the
message into the worker info's last_error. -/
def processFrames (tupdesc : List Nat) (recv : Nat → Bool) :
    ResultState → List Frame → StreamOutcome
  | st, [] => ⟨st, [], none⟩
  | st, Frame.errorFrame e :: rest =>
      let st1 := { st with stored_error := some e.message }
      if ERROR_LEVEL ≤ e.elevel then
        ⟨st1, [], some ⟨e.code, ERROR_LEVEL, e.message⟩⟩
      else
        processFrames tupdesc recv st1 rest
  | st, Frame.asyncFrame _ :: rest => processFrames tupdesc recv st rest
  | st, Frame.schemaFrame cols :: rest =>
      match handle_schema tupdesc recv st cols with
      | .error e => ⟨st, [], some e⟩
      | .ok st1 => processFrames tupdesc recv st1 rest
  | st, Frame.rowFrame cells :: rest =>
      match form_result_tuple st tupdesc.length cells with
      | .error e => ⟨st, [], some e⟩
      | .ok r =>
          let out := processFrames tupdesc recv st rest
          ⟨out.st, r :: out.rows, out.err⟩
  | st, Frame.commandDone tag :: rest =>
      processFrames tupdesc recv { st with command_tags := st.command_tags ++ [tag] } rest
  | st, Frame.copyFrame :: _ =>
      ⟨st, [], some (err .featureNotSupported "COPY protocol not allowed in pg_background")⟩
  | st, Frame.ready :: rest =>
      processFrames tupdesc recv { st with complete := true } rest
  | st, Frame.unknownFrame _ :: rest => processFrames tupdesc recv st rest

/-- The post-loop logic of `pg_background_result`: require a terminal
Ready frame (else the connection was lost); with no RowDescription,
require a single text column and emit one synthetic row per accumulated
command tag, in arrival order. -/
def result_stream_final (pid : Int) (tupdesc : List Nat) (out : StreamOutcome) :
    Except PgError (List OutRow) :=
  match out.err with
  | some e => .error e
  | none =>
      if !out.st.complete then
        .error (err .connectionFailure (msg_lost_connection pid))
      else if !out.st.has_row_description then
        if tupdesc.length ≠ 1 ∨ tupdesc.head? ≠ some TEXTOID then
          .error (err .datatypeMismatch msg_no_result_set)
        else
          .ok (out.rows ++ out.st.command_tags.map OutRow.tag)
      else
        .ok out.rows

/-- Full decode of one result retrieval, from the frames received. -/
def pg_background_result_stream (pid : Int) (tupdesc : List Nat) (recv : Nat → Bool)
    (frames : List Frame) : Except PgError (List OutRow) :=
  result_stream_final pid tupdesc (processFrames tupdesc recv initResultState frames)

/-- `store_worker_error` truncation (PGBG_MAX_ERROR_MSG_LEN = 512;
pg_mbcliplen is modelled as character clipping). -/
def truncate_error (m : String) : String :=
  if 512 < m.length then m.take 509 ++ "..." else m

/-- The drain phase of `pg_background_result`, entered once the lookup
and rights/disabled/consumed checks have passed: the consumed flag is
set and the mapping unpinned up front; any 'E'/'N' message stores a
truncated last_error.  Either way the call ends with the segment
detached and the entry removed: a successful drain detaches the DSM
segment explicitly, while a failed drain raises ERROR and the
transaction abort releases the just-unpinned segment through
resource-owner cleanup (the pin in `launch_internal` exists precisely
so that this does not happen earlier); both detach paths fire
`cleanup_worker_info`, which removes the registry entry. -/
def result_call_drain (reg : Registry) (pid : Int) (tupdesc : List Nat)
    (recv : Nat → Bool) (frames : List Frame) :
    Except PgError (List OutRow) × Registry :=
  let reg1 := registry_update reg pid
    (fun i => { i with consumed := true, mapping_pinned := false })
  let out := processFrames tupdesc recv initResultState frames
  let reg2 := match out.st.stored_error with
    | some m => registry_update reg1 pid
        (fun i => { i with last_error := some (truncate_error m) })
    | none => reg1
  match result_stream_final pid tupdesc out with
  | .error e => (.error e, registry_erase reg2 pid)
  | .ok rows => (.ok rows, registry_erase reg2 pid)

/-- `pg_background_result` (v1): the whole SQL-level call.  Returns the
produced rows (or the error) together with the registry afterwards. -/
def pg_background_result_call (reg : Registry) (caller : Caller) (pid : Int)
    (tupdesc : List Nat) (recv : Nat → Bool) (frames : List Frame) :
    Except PgError (List OutRow) × Registry :=
  match find_worker_info reg pid with
  | none => (.error (err .undefinedObject (msg_not_attached pid)), reg)
  | some info =>
      if !(caller.hasPrivsOf info.current_user_id) then
        (.error (perm_denied_error info.pid), reg)
      else if info.result_disabled then
        (.error (err .featureNotSupported (msg_result_disabled pid)), reg)
      else if info.consumed then
        (.error (err .undefinedObject (msg_already_consumed pid)), reg)
      else
        result_call_drain reg pid tupdesc recv frames

/-- `pg_background_result_v2`: cookie-validating wrapper around the v1
result function. -/
def pg_background_result_v2_call (reg : Registry) (caller : Caller) (pid : Int)
    (cookie_in : Int) (tupdesc : List Nat) (recv : Nat → Bool) (frames : List Frame) :
    Except PgError (List OutRow) × Registry :=
  match find_worker_info reg pid with
  | none => (.error (err .undefinedObject (msg_not_attached pid)), reg)
  | some info =>
      if !(caller.hasPrivsOf info.current_user_id) then
        (.error (perm_denied_error info.pid), reg)
      else if info.cookie ≠ uint64_of_int cookie_in then
        (.error (err .undefinedObject (msg_cookie_mismatch_result pid)), reg)
      else
        pg_background_result_call reg caller pid tupdesc recv frames

/-! ## Detach and wait (v2) -/

/-- `pg_background_detach_v2`: cookie-validated detach.  Detaching the
segment fires `cleanup_worker_info`, removing the registry entry. -/
def pg_background_detach_v2_call (reg : Registry) (caller : Caller) (pid : Int)
    (cookie_in : Int) : Except PgError Registry :=
  match find_worker_info reg pid with
  | none => .error (err .undefinedObject (msg_not_attached pid))
  | some info =>
      if !(caller.hasPrivsOf info.current_user_id) then
        .error (perm_denied_error info.pid)
      else if info.cookie ≠ uint64_of_int cookie_in then
        .error (err .objectNotInPrerequisiteState (msg_cookie_mismatch pid))
      else if info.hasSeg then
        .ok (registry_erase reg pid)
      else
        .ok reg

/-- `pg_background_wait_v2`: cookie-validated blocking wait (the wait on
the bgworker handle itself is an external supervisor call). -/
def pg_background_wait_v2_call (reg : Registry) (caller : Caller) (pid : Int)
    (cookie_in : Int) : Except PgError Unit :=
  match find_worker_info reg pid with
  | none => .error (err .undefinedObject (msg_not_attached pid))
  | some info =>
      if !(caller.hasPrivsOf info.current_user_id) then
        .error (perm_denied_error info.pid)
      else if info.cookie ≠ uint64_of_int cookie_in then
        .error (err .objectNotInPrerequisiteState (msg_cookie_mismatch pid))
      else
        .ok ()

/-! ## Cancel with grace period -/

/-- PGBG_GRACE_MS_MAX: 1 hour. -/
def PGBG_GRACE_MS_MAX : Int := 3600000

/-- PGBG_POLL_INTERVAL_MIN_US: 1 ms. -/
def PGBG_POLL_INTERVAL_MIN_US : Nat := 1000

/-- PGBG_POLL_INTERVAL_MAX_US: 100 ms. -/
def PGBG_POLL_INTERVAL_MAX_US : Nat := 100000

/-- The grace-period clamp of `pg_background_cancel_v2_grace`. -/
def clamp_grace (g : Int) : Int :=
  if g < 0 then 0 else if PGBG_GRACE_MS_MAX < g then PGBG_GRACE_MS_MAX else g

/-- `pgbg_sleep_with_backoff`: returns the sleep actually performed
(capped to the remaining time when one is given) and the next interval
(doubled, capped at PGBG_POLL_INTERVAL_MAX_US). -/
def pgbg_sleep_with_backoff (interval_us remaining_us : Nat) : Nat × Nat :=
  let sleep_time :=
    if 0 < remaining_us ∧ remaining_us < interval_us then remaining_us else interval_us
  let next :=
    if PGBG_POLL_INTERVAL_MAX_US < interval_us * 2 then PGBG_POLL_INTERVAL_MAX_US
    else interval_us * 2
  (sleep_time, next)

/-- The poll interval before the k-th sleep, starting from
PGBG_POLL_INTERVAL_MIN_US and stepping with `pgbg_sleep_with_backoff`. -/
def backoff_intervals : Nat → Nat
  | 0 => PGBG_POLL_INTERVAL_MIN_US
  | k + 1 => (pgbg_sleep_with_backoff (backoff_intervals k) 0).2

/-- Observable steps of a cancel call. -/
inductive CancelAction
  | setCanceledFlag
  | setCancelRequested
  | sigterm
  | poll (stopped : Bool)
  | sleep (us : Nat)
  | sigkill
  deriving DecidableEq, Repr

/-- External observations driving the grace-period loop: whether the
k-th `GetBackgroundWorkerPid` poll reports BGWH_STOPPED, and the elapsed
milliseconds measured right after it. -/
structure CancelOracle where
  stoppedAt : Nat → Bool
  elapsedAt : Nat → Nat

/-- The grace-period polling loop of `pgbg_send_cancel_signals`:
poll, stop silently if the worker exited, escalate to SIGKILL once the
grace period has elapsed, otherwise sleep with exponential backoff
(capped to the remaining time) and retry.  `fuel` bounds the number of
iterations modelled; `none` means the bound was hit. -/
def cancel_poll_loop (o : CancelOracle) (wpid : Int) (grace_ms : Nat) :
    Nat → Nat → Nat → Option (List CancelAction)
  | 0, _, _ => none
  | fuel + 1, k, interval_us =>
      if o.stoppedAt k then
        some [CancelAction.poll true]
      else if grace_ms ≤ o.elapsedAt k then
        some (CancelAction.poll false ::
          (if 0 < wpid then [CancelAction.sigkill] else []))
      else
        let remaining_us := (grace_ms - o.elapsedAt k) * 1000
        let p := pgbg_sleep_with_backoff interval_us remaining_us
        match cancel_poll_loop o wpid grace_ms fuel (k + 1) p.2 with
        | none => none
        | some rest =>
            some (CancelAction.poll false :: CancelAction.sleep p.1 :: rest)

/-- `pgbg_send_cancel_signals`: SIGTERM first (when the pid is valid),
then, when a positive grace period and a handle are available, run the
polling loop. -/
def pgbg_send_cancel_signals (o : CancelOracle) (hasHandle : Bool) (wpid : Int)
    (grace_ms : Int) (fuel : Nat) : Option (List CancelAction) :=
  let term := if 0 < wpid then [CancelAction.sigterm] else []
  if grace_ms ≤ 0 ∨ hasHandle = false then
    some term
  else
    match cancel_poll_loop o wpid grace_ms.toNat fuel 0 PGBG_POLL_INTERVAL_MIN_US with
    | none => none
    | some tr => some (term ++ tr)

/-- `pg_background_cancel_v2`: validate, mark canceled, set the shared
cancel-requested flag (when the segment is attached), send SIGTERM with
no grace period. -/
def pg_background_cancel_v2_call (reg : Registry) (caller : Caller) (pid : Int)
    (cookie_in : Int) (o : CancelOracle) (fuel : Nat) :
    Except PgError (Registry × Option (List CancelAction)) :=
  match find_worker_info reg pid with
  | none => .error (err .undefinedObject (msg_not_attached pid))
  | some info =>
      if !(caller.hasPrivsOf info.current_user_id) then
        .error (perm_denied_error info.pid)
      else if info.cookie ≠ uint64_of_int cookie_in then
        .error (err .objectNotInPrerequisiteState (msg_cookie_mismatch pid))
      else
        let reg1 := registry_update reg pid (fun i => { i with canceled := true })
        let pre := CancelAction.setCanceledFlag ::
          (if info.hasSeg then [CancelAction.setCancelRequested] else [])
        match pgbg_send_cancel_signals o info.hasHandle info.pid 0 fuel with
        | none => .ok (reg1, none)
        | some sigtr => .ok (reg1, some (pre ++ sigtr))

/-- `pg_background_cancel_v2_grace`: validate, clamp the grace period to
[0, PGBG_GRACE_MS_MAX], mark canceled, set the shared flag, send the
signals with the clamped grace period. -/
def pg_background_cancel_v2_grace_call (reg : Registry) (caller : Caller) (pid : Int)
    (cookie_in : Int) (grace_ms : Int) (o : CancelOracle) (fuel : Nat) :
    Except PgError (Registry × Option (List CancelAction)) :=
  match find_worker_info reg pid with
  | none => .error (err .undefinedObject (msg_not_attached pid))
  | some info =>
      if !(caller.hasPrivsOf info.current_user_id) then
        .error (perm_denied_error info.pid)
      else if info.cookie ≠ uint64_of_int cookie_in then
        .error (err .objectNotInPrerequisiteState (msg_cookie_mismatch pid))
      else
        let g := clamp_grace grace_ms
        let reg1 := registry_update reg pid (fun i => { i with canceled := true })
        let pre := CancelAction.setCanceledFlag ::
          (if info.hasSeg then [CancelAction.setCancelRequested] else [])
        match pgbg_send_cancel_signals o info.hasHandle info.pid g fuel with
        | none => .ok (reg1, none)
        | some sigtr => .ok (reg1, some (pre ++ sigtr))

/-- Extract the sleeps performed from a cancel trace. -/
def traceSleeps (tr : List CancelAction) : List Nat :=
  tr.filterMap (fun a => match a with | .sleep u => some u | _ => none)

/-- `natRange s n`: the list `[s, s+1, ..., s+n-1]`. -/
def natRange : Nat → Nat → List Nat
  | _, 0 => []
  | s, n + 1 => s :: natRange (s + 1) n

/-! ## Launcher (launch_internal, save_worker_info) -/

/-- PGBG_QUEUE_SIZE_MAX: 256 MB. -/
def PGBG_QUEUE_SIZE_MAX : Int := 268435456

/-- PGBG_SQL_PREVIEW_LEN: preview length for list_v2. -/
def PGBG_SQL_PREVIEW_LEN : Nat := 120

/-- SQL preview (pg_mbcliplen modelled as character clipping). -/
def sql_preview_of (s : String) : String :=
  if PGBG_SQL_PREVIEW_LEN < s.length then s.take PGBG_SQL_PREVIEW_LEN else s

/-- The GUC configuration relevant to launching, plus the external
constant `shm_mq_minimum_size`. -/
structure LaunchConfig where
  shm_mq_minimum_size : Nat
  max_workers : Nat
  default_queue_size : Int
  deriving Repr

/-- `WaitForBackgroundWorkerStartup` outcomes. -/
inductive StartupStatus
  | started
  | stopped
  | postmasterDied
  | notYetStarted
  deriving DecidableEq, Repr

/-- External outcomes of one launch attempt: DSM creation, dynamic
bgworker registration, startup status, and the worker pid assigned. -/
structure LaunchOracle where
  dsmOk : Bool
  registerOk : Bool
  startup : StartupStatus
  workerPid : Int
  deriving Repr

/-- A fresh `pg_background_worker_info` as filled in by `save_worker_info`. -/
def mk_worker_info (pid : Int) (user : Nat) (cookie : Nat) (result_disabled : Bool)
    (queue_size : Int) (preview : String) : WorkerInfo :=
  { pid := pid
    current_user_id := user
    cookie := cookie
    hasSeg := true
    hasHandle := true
    consumed := false
    mapping_pinned := false
    result_disabled := result_disabled
    canceled := false
    queue_size := queue_size
    sql_preview := preview
    last_error := none }

/-- Stale-entry handling steps of `save_worker_info`. -/
inductive SaveAction
  | unpinStale
  | detachStale
  deriving DecidableEq, Repr

/-- `save_worker_info`: store worker info in the hash table.  A duplicate
pid owned by a different user is a FATAL duplicate-object error (the
session dies; the table is never overwritten); a duplicate owned by the
same user has its stale segment unpinned/detached first (which fires the
cleanup callback and removes the old row), then the new entry is stored. -/
def save_worker_info (reg : Registry) (callerUser : Nat) (pid : Int) (cookie : Nat)
    (result_disabled : Bool) (queue_size : Int) (preview : String) :
    Except PgError (Registry × List SaveAction) :=
  match find_worker_info reg pid with
  | some old =>
      if callerUser ≠ old.current_user_id then
        .error ⟨.duplicateObject, FATAL_LEVEL, msg_worker_exists pid⟩
      else
        let acts :=
          (if old.hasSeg && old.mapping_pinned then [SaveAction.unpinStale] else []) ++
          (if old.hasSeg then [SaveAction.detachStale] else [])
        .ok (mk_worker_info pid callerUser cookie result_disabled queue_size preview ::
              registry_erase reg pid, acts)
  | none =>
      .ok (mk_worker_info pid callerUser cookie result_disabled queue_size preview ::
            registry_erase reg pid, [])

/-- `launch_internal`: default the queue size from the GUC when not
specified (≤ 0), validate it against the protocol floor and the 256 MB
ceiling, enforce the max_workers admission limit, then create the DSM
segment, register and await the worker, and record it in the registry
(pinning the mapping afterwards).  Returns the new registry and pid. -/
def launch_internal (cfg : LaunchConfig) (o : LaunchOracle) (reg : Registry)
    (callerUser : Nat) (sql : String) (queue_size : Int) (cookie : Nat)
    (result_disabled : Bool) : Except PgError (Registry × Int) :=
  let qs := if queue_size ≤ 0 then cfg.default_queue_size else queue_size
  if uint64_of_int qs < cfg.shm_mq_minimum_size then
    .error (err .invalidParameterValue
      s!"queue size must be at least {cfg.shm_mq_minimum_size} bytes")
  else if PGBG_QUEUE_SIZE_MAX < qs then
    .error (err .invalidParameterValue
      s!"queue size must not exceed {PGBG_QUEUE_SIZE_MAX} bytes")
  else if reg.length ≠ 0 ∧ cfg.max_workers ≤ reg.length then
    .error (err .configurationLimitExceeded "too many background workers")
  else if !o.dsmOk then
    .error (err .outOfMemory "could not create dynamic shared memory segment")
  else if !o.registerOk then
    .error (err .insufficientResources "could not register background process")
  else if o.startup = .postmasterDied then
    .error (err .insufficientResources
      "cannot start background processes without postmaster")
  else if o.startup = .notYetStarted then
    .error (err .internalError "unexpected bgworker handle status")
  else
    match save_worker_info reg callerUser o.workerPid cookie result_disabled qs
        (sql_preview_of sql) with
    | .error e => .error e
    | .ok (reg1, _) =>
        .ok (registry_update reg1 o.workerPid
              (fun i => { i with mapping_pinned := true }), o.workerPid)

/-! ## Progress reporting -/

/-- The progress fields of `pg_background_fixed_data`. -/
structure ProgressRecord where
  pct : Int
  msg : String
  deriving DecidableEq, Repr

/-- Progress fields as initialized by `launch_internal`
(-1 = not reported yet). -/
def initial_progress : ProgressRecord := ⟨-1, ""⟩

/-- Progress-message truncation (63 bytes; pg_mbcliplen modelled as
character clipping). -/
def clip_progress_msg : Option String → String
  | none => ""
  | some m => if 63 < m.length then m.take 63 else m

/-- `pg_background_progress`: callable only from a worker; clamps the
percentage to [0, 100], writes the message then the percentage. -/
def pg_background_progress_call (inWorker : Bool) (pct : Int) (msg : Option String) :
    Except PgError ProgressRecord :=
  if !inWorker then
    .error (err .featureNotSupported
      "pg_background_progress can only be called from a background worker")
  else
    let p := if pct < 0 then 0 else if 100 < pct then 100 else pct
    .ok ⟨p, clip_progress_msg msg⟩

/-- The progress records that can actually exist in shared memory: the
initial record, or the result of some successful `pg_background_progress`
call. -/
inductive ProgressReachable : ProgressRecord → Prop
  | init : ProgressReachable initial_progress
  | report (pct : Int) (m : Option String) (rec2 : ProgressRecord) :
      pg_background_progress_call true pct m = .ok rec2 →
      ProgressReachable rec2

/-- `pg_background_get_progress_v2`: every not-found-style condition
(unknown pid, cookie mismatch, detached segment, inaccessible TOC,
progress not reported yet) returns NULL; only `check_rights` raises. -/
def pg_background_get_progress_v2_call (reg : Registry) (caller : Caller) (pid : Int)
    (cookie_in : Int) (tocOk : Bool) (rec : ProgressRecord) :
    Except PgError (Option (Int × String)) :=
  match find_worker_info reg pid with
  | none => .ok none
  | some info =>
      if !(caller.hasPrivsOf info.current_user_id) then
        .error (perm_denied_error info.pid)
      else if info.cookie ≠ uint64_of_int cookie_in then
        .ok none
      else if !info.hasSeg then
        .ok none
      else if !tocOk then
        .ok none
      else if rec.pct < 0 then
        .ok none
      else
        .ok (some (rec.pct, rec.msg))

/-! ## Registry lemmas -/

theorem find_registry_update (reg : Registry) (pid : Int) (f : WorkerInfo → WorkerInfo)
    (hf : ∀ i, (f i).pid = i.pid) :
    find_worker_info (registry_update reg pid f) pid = (find_worker_info reg pid).map f := by
  induction reg with
  | nil => rfl
  | cons i rest ih =>
      simp only [find_worker_info, registry_update, List.map_cons]
      by_cases h : i.pid = pid
      · rw [List.find?_cons_of_pos, List.find?_cons_of_pos]
        · simp [h]
        · simp [h]
        · simp [h, hf]
      · rw [List.find?_cons_of_neg, List.find?_cons_of_neg]
        · exact ih
        · simp [h]
        · simp [h]

theorem find_registry_erase (reg : Registry) (pid : Int) :
    find_worker_info (registry_erase reg pid) pid = none := by
  induction reg with
  | nil => rfl
  | cons i rest ih =>
      simp only [find_worker_info, registry_erase] at *
      by_cases h : i.pid = pid
      · simp only [List.filter_cons]
        have hb : (i.pid != pid) = false := by simp [h]
        rw [hb]
        simp only [Bool.false_eq_true, if_false]
        exact ih
      · simp only [List.filter_cons]
        have hb : (i.pid != pid) = true := by simp [h]
        rw [hb]
        simp only [if_true]
        have hb2 : (i.pid == pid) = false := by simp [h]
        simp [List.find?, hb2, ih]

theorem registry_update_length (reg : Registry) (pid : Int) (f : WorkerInfo → WorkerInfo) :
    (registry_update reg pid f).length = reg.length := by
  simp [registry_update]

theorem registry_erase_length_le (reg : Registry) (pid : Int) :
    (registry_erase reg pid).length ≤ reg.length := by
  simpa [registry_erase] using List.length_filter_le _ reg

/-! ## Decode-loop lemmas -/

theorem handle_schema_ok (tupdesc : List Nat) (recv : Nat → Bool) (st : ResultState)
    (cols : List Nat) (st2 : ResultState)
    (h : handle_schema tupdesc recv st cols = .ok st2) :
    cols.length = tupdesc.length ∧ st2 = { st with has_row_description := true } := by
  unfold handle_schema at h
  split_ifs at h with h1 h2 h3 h4
  all_goals simp_all

theorem processFrames_complete_false (tupdesc : List Nat) (recv : Nat → Bool) :
    ∀ (frames : List Frame) (st : ResultState), Frame.ready ∉ frames →
      st.complete = false → (processFrames tupdesc recv st frames).st.complete = false := by
  intro frames
  induction frames with
  | nil => intro st _ hc; exact hc
  | cons f rest ih =>
      intro st hmem hc
      have hmem' : Frame.ready ∉ rest := fun hr => hmem (List.mem_cons_of_mem _ hr)
      cases f with
      | errorFrame e =>
          simp only [processFrames]
          split
          · exact hc
          · exact ih _ hmem' hc
      | asyncFrame p => exact ih _ hmem' hc
      | schemaFrame cols =>
          simp only [processFrames]
          cases hh : handle_schema tupdesc recv st cols with
          | error e => exact hc
          | ok st1 =>
              have hs := (handle_schema_ok tupdesc recv st cols st1 hh).2
              exact ih _ hmem' (by rw [hs]; exact hc)
      | rowFrame cells =>
          simp only [processFrames]
          cases hf : form_result_tuple st tupdesc.length cells with
          | error e => exact hc
          | ok r => exact ih _ hmem' hc
      | commandDone tag => exact ih _ hmem' hc
      | copyFrame => exact hc
      | ready => exact absurd (List.mem_cons_self _ _) hmem
      | unknownFrame c => exact ih _ hmem' hc

theorem processFrames_tags (tupdesc : List Nat) (recv : Nat → Bool) :
    ∀ (ts : List String) (st : ResultState),
      processFrames tupdesc recv st (ts.map Frame.commandDone ++ [Frame.ready]) =
        ⟨{ st with command_tags := st.command_tags ++ ts, complete := true }, [], none⟩ := by
  intro ts
  induction ts with
  | nil =>
      intro st
      simp [processFrames]
  | cons t ts ih =>
      intro st
      simp only [List.map_cons, List.cons_append, processFrames, List.append_eq]
      rw [ih]
      simp [List.append_assoc]

/-! ## Backoff lemmas -/

theorem backoff_intervals_closed (k : Nat) :
    backoff_intervals k = min (1000 * 2 ^ k) 100000 := by
  induction k with
  | zero => simp [backoff_intervals, PGBG_POLL_INTERVAL_MIN_US]
  | succ k ih =>
      have hp : 1000 * 2 ^ (k + 1) = 1000 * 2 ^ k * 2 := by rw [pow_succ, mul_assoc]
      simp only [backoff_intervals, pgbg_sleep_with_backoff, PGBG_POLL_INTERVAL_MAX_US]
      rw [ih, hp]
      rcases Nat.le_total (1000 * 2 ^ k) 100000 with h | h
      · rw [Nat.min_eq_left h]
        rcases Nat.lt_or_ge 100000 (1000 * 2 ^ k * 2) with h2 | h2
        · rw [if_pos h2, Nat.min_eq_right (Nat.le_of_lt h2)]
        · rw [if_neg (by omega), Nat.min_eq_left h2]
      · rw [Nat.min_eq_right h]
        rw [if_pos (by omega), Nat.min_eq_right (by omega)]

theorem pgbg_sleep_fst (i r : Nat) (hr : 0 < r) :
    (pgbg_sleep_with_backoff i r).1 = min i r := by
  simp only [pgbg_sleep_with_backoff]
  rcases Nat.lt_or_ge r i with h | h
  · rw [if_pos ⟨hr, h⟩, Nat.min_eq_right (Nat.le_of_lt h)]
  · rw [if_neg (by omega), Nat.min_eq_left h]

theorem pgbg_sleep_snd_irrel (i r : Nat) :
    (pgbg_sleep_with_backoff i r).2 = (pgbg_sleep_with_backoff i 0).2 := rfl

/-! ## Cancel-loop lemmas -/

theorem cancel_poll_loop_kill (o : CancelOracle) (wpid : Int) (g : Nat) :
    ∀ (fuel k interval : Nat) (tr : List CancelAction),
      cancel_poll_loop o wpid g fuel k interval = some tr →
      CancelAction.sigkill ∈ tr →
      ∃ m, k ≤ m ∧ (∀ j, k ≤ j → j ≤ m → o.stoppedAt j = false) ∧ g ≤ o.elapsedAt m := by
  intro fuel
  induction fuel with
  | zero => intro k interval tr h; simp [cancel_poll_loop] at h
  | succ fuel ih =>
      intro k interval tr h hk
      simp only [cancel_poll_loop] at h
      by_cases hs : o.stoppedAt k
      · rw [if_pos hs] at h
        cases h
        simp at hk
      · rw [Bool.not_eq_true] at hs
        rw [if_neg (by simp [hs])] at h
        by_cases he : g ≤ o.elapsedAt k
        · rw [if_pos he] at h
          cases h
          refine ⟨k, le_refl k, ?_, he⟩
          intro j h1 h2
          have hjk : j = k := le_antisymm h2 h1
          rw [hjk]
          exact hs
        · rw [if_neg he] at h
          cases hrec : cancel_poll_loop o wpid g fuel (k + 1)
              (pgbg_sleep_with_backoff interval ((g - o.elapsedAt k) * 1000)).2 with
          | none => rw [hrec] at h; simp at h
          | some rest =>
              rw [hrec] at h
              cases h
              have hkr : CancelAction.sigkill ∈ rest := by
                simpa using hk
              obtain ⟨m, hm1, hm2, hm3⟩ := ih (k + 1) _ rest hrec hkr
              refine ⟨m, le_trans (Nat.le_succ k) hm1, ?_, hm3⟩
              intro j h1 h2
              rcases Nat.eq_or_lt_of_le h1 with hkj | hkj
              · rw [← hkj]; exact hs
              · exact hm2 j hkj h2

theorem traceSleeps_cons_poll (b : Bool) (tr : List CancelAction) :
    traceSleeps (CancelAction.poll b :: tr) = traceSleeps tr := rfl

theorem traceSleeps_cons_sleep (u : Nat) (tr : List CancelAction) :
    traceSleeps (CancelAction.sleep u :: tr) = u :: traceSleeps tr := rfl

theorem cancel_poll_loop_sleeps (o : CancelOracle) (wpid : Int) (g : Nat) :
    ∀ (fuel k : Nat) (tr : List CancelAction),
      cancel_poll_loop o wpid g fuel k (backoff_intervals k) = some tr →
      ∃ n, traceSleeps tr = (natRange k n).map
        (fun j => min (backoff_intervals j) ((g - o.elapsedAt j) * 1000)) := by
  intro fuel
  induction fuel with
  | zero => intro k tr h; simp [cancel_poll_loop] at h
  | succ fuel ih =>
      intro k tr h
      simp only [cancel_poll_loop] at h
      by_cases hs : o.stoppedAt k
      · rw [if_pos hs] at h
        cases h
        exact ⟨0, by simp [traceSleeps, natRange]⟩
      · rw [Bool.not_eq_true] at hs
        rw [if_neg (by simp [hs])] at h
        by_cases he : g ≤ o.elapsedAt k
        · rw [if_pos he] at h
          cases h
          refine ⟨0, ?_⟩
          by_cases hw : (0 : Int) < wpid <;> simp [hw, traceSleeps, natRange]
        · rw [if_neg he] at h
          rw [pgbg_sleep_snd_irrel] at h
          cases hrec : cancel_poll_loop o wpid g fuel (k + 1) (backoff_intervals (k + 1)) with
          | none =>
              rw [show backoff_intervals (k + 1) =
                (pgbg_sleep_with_backoff (backoff_intervals k) 0).2 from rfl] at hrec
              rw [hrec] at h
              exact Option.noConfusion h
          | some rest =>
              rw [show backoff_intervals (k + 1) =
                (pgbg_sleep_with_backoff (backoff_intervals k) 0).2 from rfl] at hrec
              rw [hrec] at h
              cases h
              obtain ⟨n, hn⟩ := ih (k + 1) rest hrec
              refine ⟨n + 1, ?_⟩
              have hrem : 0 < (g - o.elapsedAt k) * 1000 := by omega
              have hfst := pgbg_sleep_fst (backoff_intervals k)
                ((g - o.elapsedAt k) * 1000) hrem
              rw [traceSleeps_cons_poll, traceSleeps_cons_sleep, hfst, hn,
                show natRange k (n + 1) = k :: natRange (k + 1) n from rfl, List.map_cons]

/-! ## Progress lemmas -/

theorem progress_reachable_bounds (rec : ProgressRecord) (h : ProgressReachable rec) :
    rec.pct = -1 ∨ (0 ≤ rec.pct ∧ rec.pct ≤ 100) := by
  cases h with
  | init => left; rfl
  | report pct m rec2 heq =>
      right
      simp only [pg_background_progress_call, Bool.not_true, Bool.false_eq_true,
        if_false] at heq
      cases heq
      dsimp only
      split_ifs <;> constructor <;> omega

/-! ## Message-distinguishability lemma -/

theorem msg_cookie_mismatch_result_ne (pid : Int) :
    msg_cookie_mismatch_result pid ≠ msg_not_attached pid := by
  intro h
  have hl := congrArg String.length h
  rw [msg_cookie_mismatch_result, String.length_append] at hl
  have h18 : (" (cookie mismatch)" : String).length = 18 := rfl
  omega

/-! ## Concrete fixtures for witnesses and counterexamples -/

/-- A registered worker: pid 100, owner 10, cookie 5, segment and handle
attached, nothing consumed or canceled. -/
def wi0 : WorkerInfo :=
  { pid := 100, current_user_id := 10, cookie := 5, hasSeg := true, hasHandle := true,
    consumed := false, mapping_pinned := true, result_disabled := false, canceled := false,
    queue_size := 65536, sql_preview := "SELECT 1", last_error := none }

/-- A caller with privileges over every role. -/
def caller0 : Caller := ⟨10, fun _ => true⟩

/-- A cancel oracle whose worker never stops and whose clock stands still. -/
def oracle0 : CancelOracle := ⟨fun _ => false, fun _ => 0⟩

/-! ## Claim C1 -/

/-- C1, counterexample: a cookie mismatch on `pg_background_cancel_v2` is
NOT surfaced identically to an unknown TaskId — the mismatch raises
errcode object_not_in_prerequisite_state with message "cookie mismatch
for PID 100", while the unknown pid raises undefined_object with message
"PID 101 is not attached to this session"; the error kinds differ, so the
two cases are distinguishable, refuting the claim as stated. -/
theorem claim_C1_counterexample :
    pg_background_cancel_v2_call [wi0] caller0 100 6 oracle0 1
        = .error (err .objectNotInPrerequisiteState (msg_cookie_mismatch 100))
    ∧ pg_background_cancel_v2_call [wi0] caller0 101 6 oracle0 1
        = .error (err .undefinedObject (msg_not_attached 101))
    ∧ ErrCode.objectNotInPrerequisiteState ≠ ErrCode.undefinedObject :=
  ⟨rfl, rfl, by decide⟩

/-- C1 (amended): a v2 operation on a registered pid with a wrong cookie
always fails, but distinguishably from an unknown TaskId:
`result_v2` raises the same undefined_object errcode with the
not-attached message suffixed by " (cookie mismatch)", while `detach_v2`,
`cancel_v2` and `wait_v2` raise a different errcode
(object_not_in_prerequisite_state) with message "cookie mismatch for PID
%d"; an unknown TaskId raises undefined_object with the plain
not-attached message on all four operations. -/
theorem claim_C1_amended_theorem (reg : Registry) (caller : Caller) (pid : Int)
    (cookie_in : Int) (info : WorkerInfo) (pid2 : Int)
    (tupdesc : List Nat) (recv : Nat → Bool) (frames : List Frame)
    (o : CancelOracle) (fuel : Nat)
    (hfind : find_worker_info reg pid = some info)
    (hpriv : caller.hasPrivsOf info.current_user_id = true)
    (hck : info.cookie ≠ uint64_of_int cookie_in)
    (hnone : find_worker_info reg pid2 = none) :
    (pg_background_result_v2_call reg caller pid cookie_in tupdesc recv frames).1
        = .error (err .undefinedObject (msg_cookie_mismatch_result pid))
    ∧ pg_background_detach_v2_call reg caller pid cookie_in
        = .error (err .objectNotInPrerequisiteState (msg_cookie_mismatch pid))
    ∧ pg_background_cancel_v2_call reg caller pid cookie_in o fuel
        = .error (err .objectNotInPrerequisiteState (msg_cookie_mismatch pid))
    ∧ pg_background_wait_v2_call reg caller pid cookie_in
        = .error (err .objectNotInPrerequisiteState (msg_cookie_mismatch pid))
    ∧ (pg_background_result_v2_call reg caller pid2 cookie_in tupdesc recv frames).1
        = .error (err .undefinedObject (msg_not_attached pid2))
    ∧ pg_background_detach_v2_call reg caller pid2 cookie_in
        = .error (err .undefinedObject (msg_not_attached pid2))
    ∧ pg_background_cancel_v2_call reg caller pid2 cookie_in o fuel
        = .error (err .undefinedObject (msg_not_attached pid2))
    ∧ pg_background_wait_v2_call reg caller pid2 cookie_in
        = .error (err .undefinedObject (msg_not_attached pid2))
    ∧ msg_cookie_mismatch_result pid ≠ msg_not_attached pid
    ∧ ErrCode.objectNotInPrerequisiteState ≠ ErrCode.undefinedObject := by
  refine ⟨?_, ?_, ?_, ?_, ?_, ?_, ?_, ?_, msg_cookie_mismatch_result_ne pid, by simp⟩
  all_goals simp [pg_background_result_v2_call, pg_background_detach_v2_call,
    pg_background_cancel_v2_call, pg_background_wait_v2_call, hfind, hpriv, hck, hnone]

/-- C1, witness: the amended theorem applied to the concrete registry
`[wi0]` with mismatching cookie 6 and unknown pid 101. -/
theorem claim_C1_witness :
    pg_background_wait_v2_call [wi0] caller0 100 6
        = .error (err .objectNotInPrerequisiteState (msg_cookie_mismatch 100))
    ∧ pg_background_wait_v2_call [wi0] caller0 101 6
        = .error (err .undefinedObject (msg_not_attached 101))
    ∧ msg_cookie_mismatch_result 100 ≠ msg_not_attached 100 := by
  have h := claim_C1_amended_theorem [wi0] caller0 100 6 wi0 101 [TEXTOID]
    (fun _ => true) [] oracle0 1 rfl rfl (by decide) rfl
  exact ⟨h.2.2.2.1, h.2.2.2.2.2.2.2.1, h.2.2.2.2.2.2.2.2.1⟩

/-! ## Claim C2 -/

theorem result_call_unknown_pid (reg : Registry) (caller : Caller) (pid : Int)
    (tupdesc : List Nat) (recv : Nat → Bool) (frames : List Frame)
    (h : find_worker_info reg pid = none) :
    (pg_background_result_call reg caller pid tupdesc recv frames).1
      = .error (err .undefinedObject (msg_not_attached pid)) := by
  simp [pg_background_result_call, h]

theorem result_call_consumed (reg : Registry) (caller : Caller) (pid : Int)
    (tupdesc : List Nat) (recv : Nat → Bool) (frames : List Frame) (info : WorkerInfo)
    (h : find_worker_info reg pid = some info)
    (hpriv : caller.hasPrivsOf info.current_user_id = true)
    (hrd : info.result_disabled = false)
    (hc : info.consumed = true) :
    (pg_background_result_call reg caller pid tupdesc recv frames).1
      = .error (err .undefinedObject (msg_already_consumed pid)) := by
  simp [pg_background_result_call, h, hpriv, hrd, hc]

theorem result_call_drain_registry (reg : Registry) (pid : Int) (tupdesc : List Nat)
    (recv : Nat → Bool) (frames : List Frame) :
    find_worker_info (result_call_drain reg pid tupdesc recv frames).2 pid = none := by
  simp only [result_call_drain]
  cases hfin : result_stream_final pid tupdesc
      (processFrames tupdesc recv initResultState frames) with
  | error e => exact find_registry_erase _ pid
  | ok rows => exact find_registry_erase _ pid

/-- C2, counterexample: after a first `pg_background_result` call that
runs to successful completion, the registry entry is removed by the DSM
detach, so a second call on the same TaskId fails with the NotFound-style
"PID 100 is not attached to this session" error, not with the
AlreadyConsumed error, refuting the claim as stated. -/
theorem claim_C2_counterexample :
    (pg_background_result_call [wi0] caller0 100 [TEXTOID] (fun _ => true)
        [Frame.ready]).1 = .ok []
    ∧ (pg_background_result_call
        (pg_background_result_call [wi0] caller0 100 [TEXTOID] (fun _ => true)
          [Frame.ready]).2
        caller0 100 [TEXTOID] (fun _ => true) [Frame.ready]).1
        = .error (err .undefinedObject (msg_not_attached 100))
    ∧ msg_not_attached 100 ≠ msg_already_consumed 100 := by
  refine ⟨rfl, rfl, by decide⟩

/-- C2 (amended): `result` on the same TaskId succeeds at most once.
After a first call that enters the drain phase — whether it completes
successfully or fails with an error — the channel ends up detached
(explicitly on success; via transaction-abort resource cleanup of the
just-unpinned segment on failure), the registry entry is removed, and a
second call fails with the NotFound-style not-attached error.  The
AlreadyConsumed error guards only a retry while a consumed entry is
still registered, i.e. when the first retrieval was abandoned
mid-stream without error inside the same transaction. -/
theorem claim_C2_amended_theorem (reg : Registry) (caller : Caller) (pid : Int)
    (info : WorkerInfo) (tupdesc tupdesc2 : List Nat) (recv recv2 : Nat → Bool)
    (frames frames2 : List Frame)
    (hfind : find_worker_info reg pid = some info)
    (hpriv : caller.hasPrivsOf info.current_user_id = true)
    (hrd : info.result_disabled = false)
    (hc : info.consumed = false) :
    (pg_background_result_call
        (pg_background_result_call reg caller pid tupdesc recv frames).2
        caller pid tupdesc2 recv2 frames2).1
      = .error (err .undefinedObject (msg_not_attached pid))
    ∧ (∀ reg3 info3, find_worker_info reg3 pid = some info3 →
        caller.hasPrivsOf info3.current_user_id = true →
        info3.result_disabled = false →
        info3.consumed = true →
        (pg_background_result_call reg3 caller pid tupdesc2 recv2 frames2).1
          = .error (err .undefinedObject (msg_already_consumed pid))) := by
  have hfirst : pg_background_result_call reg caller pid tupdesc recv frames
      = result_call_drain reg pid tupdesc recv frames := by
    simp [pg_background_result_call, hfind, hpriv, hrd, hc]
  constructor
  · rw [hfirst]
    exact result_call_unknown_pid _ caller pid tupdesc2 recv2 frames2
      (result_call_drain_registry reg pid tupdesc recv frames)
  · intro reg3 info3 hfind3 hpriv3 hrd3 hc3
    exact result_call_consumed reg3 caller pid tupdesc2 recv2 frames2 info3 hfind3
      hpriv3 hrd3 hc3

/-- C2, witness: the amended theorem applied concretely — a first call
that fails mid-stream (remote ERROR frame) still ends with the entry
removed, so the retry fails with the not-attached error; and a consumed
entry that is still registered (abandoned retrieval) yields the
AlreadyConsumed error. -/
theorem claim_C2_witness :
    (pg_background_result_call
        (pg_background_result_call [wi0] caller0 100 [TEXTOID] (fun _ => true)
          [Frame.errorFrame ⟨21, .internalError, "boom"⟩]).2
        caller0 100 [TEXTOID] (fun _ => true) []).1
      = .error (err .undefinedObject (msg_not_attached 100))
    ∧ (pg_background_result_call [{ wi0 with consumed := true }] caller0 100 [TEXTOID]
        (fun _ => true) []).1
      = .error (err .undefinedObject (msg_already_consumed 100)) := by
  have h := claim_C2_amended_theorem [wi0] caller0 100 wi0 [TEXTOID] [TEXTOID]
    (fun _ => true) (fun _ => true) [Frame.errorFrame ⟨21, .internalError, "boom"⟩] []
    rfl rfl rfl rfl
  exact ⟨h.1, h.2 [{ wi0 with consumed := true }] { wi0 with consumed := true }
    rfl rfl rfl rfl⟩

/-! ## Claim C3 -/

/-- C3, counterexample: a worker that sends CommandDone("A") then
CommandDone("B") and no Schema, consumed with a single-text-column
shape, yields TWO synthetic rows "A", "B" in arrival order — not exactly
one row holding the last tag "B" — refuting the claim as stated. -/
theorem claim_C3_counterexample :
    pg_background_result_stream 100 [TEXTOID] (fun _ => true)
        [Frame.commandDone "A", Frame.commandDone "B", Frame.ready]
      = .ok [OutRow.tag "A", OutRow.tag "B"]
    ∧ [OutRow.tag "A", OutRow.tag "B"] ≠ [OutRow.tag "B"] :=
  ⟨rfl, by decide⟩

/-- C3 (amended): when no Schema frame arrives before the terminal
Ready frame and the expected shape is a single text column, the code
synthesizes one row per accumulated CommandDone tag, in arrival (FIFO)
order — so a worker sending only CommandDone("UPDATE 3") yields exactly
one row "UPDATE 3" — and when the expected shape is not a single text
column it is an error. -/
theorem claim_C3_amended_theorem (pid : Int) (recv : Nat → Bool) (ts : List String)
    (tupdesc : List Nat) :
    pg_background_result_stream pid [TEXTOID] recv
        (ts.map Frame.commandDone ++ [Frame.ready]) = .ok (ts.map OutRow.tag)
    ∧ (tupdesc.length ≠ 1 ∨ tupdesc.head? ≠ some TEXTOID →
        pg_background_result_stream pid tupdesc recv
          (ts.map Frame.commandDone ++ [Frame.ready])
          = .error (err .datatypeMismatch msg_no_result_set)) := by
  constructor
  · rw [pg_background_result_stream, processFrames_tags]
    simp [result_stream_final, initResultState]
  · intro hne
    rw [pg_background_result_stream, processFrames_tags]
    simp [result_stream_final, initResultState, hne]

/-- C3, witness: the amended theorem at a single CommandDone("UPDATE 3")
tag: exactly one synthetic row "UPDATE 3" with a single text column, and
the error with an int4 column shape. -/
theorem claim_C3_witness :
    pg_background_result_stream 100 [TEXTOID] (fun _ => true)
        [Frame.commandDone "UPDATE 3", Frame.ready] = .ok [OutRow.tag "UPDATE 3"]
    ∧ pg_background_result_stream 100 [23] (fun _ => true)
        [Frame.commandDone "UPDATE 3", Frame.ready]
        = .error (err .datatypeMismatch msg_no_result_set) := by
  have h := claim_C3_amended_theorem 100 (fun _ => true) ["UPDATE 3"] [23]
  exact ⟨h.1, h.2 (by decide)⟩

/-! ## Claim C4 -/

/-- C4: if the channel yields peer-gone (the queue drains without ever
observing a Ready frame) and no earlier frame aborted decoding, the
result retrieval fails with the lost-connection (CONNECTION_FAILURE)
error, regardless of how many valid rows the loop produced before. -/
theorem claim_C4_theorem (pid : Int) (tupdesc : List Nat) (recv : Nat → Bool)
    (frames : List Frame)
    (hready : Frame.ready ∉ frames)
    (hnoerr : (processFrames tupdesc recv initResultState frames).err = none) :
    pg_background_result_stream pid tupdesc recv frames
      = .error (err .connectionFailure (msg_lost_connection pid)) := by
  have hcomp := processFrames_complete_false tupdesc recv frames initResultState hready rfl
  unfold pg_background_result_stream result_stream_final
  rw [hnoerr, hcomp]
  simp

/-- C4, witness: a worker that sends one CommandComplete and then
vanishes without Ready produces the lost-connection error. -/
theorem claim_C4_witness :
    pg_background_result_stream 100 [TEXTOID] (fun _ => true)
        [Frame.commandDone "SELECT 1"]
      = .error (err .connectionFailure (msg_lost_connection 100)) :=
  claim_C4_theorem 100 [TEXTOID] (fun _ => true) [Frame.commandDone "SELECT 1"]
    (by decide) rfl

/-! ## Claim C5 -/

/-- C5: decoding a DataRow succeeds exactly when a RowDescription has
been seen and the row's column count equals the expected count; the
failures are the "DataRow not preceded by RowDescription" and
"malformed DataRow" protocol errors.  Moreover any accepted Schema
announces exactly the expected column count (`handle_schema` rejects
everything else), so the DataRow count check is equivalently a check
against the announced Schema's column count. -/
theorem claim_C5_theorem (st : ResultState) (tupdesc : List Nat) (recv : Nat → Bool)
    (cells : List (Option (List Nat))) (cols : List Nat) :
    (st.has_row_description = false →
      form_result_tuple st tupdesc.length cells
        = .error (err .internalError "DataRow not preceded by RowDescription"))
    ∧ (st.has_row_description = true → cells.length ≠ tupdesc.length →
      form_result_tuple st tupdesc.length cells
        = .error (err .internalError "malformed DataRow"))
    ∧ (st.has_row_description = true → cells.length = tupdesc.length →
      form_result_tuple st tupdesc.length cells = .ok (.data cells))
    ∧ (∀ st2, handle_schema tupdesc recv st cols = .ok st2 →
        cols.length = tupdesc.length ∧ st2.has_row_description = true) := by
  refine ⟨?_, ?_, ?_, ?_⟩
  · intro h; simp [form_result_tuple, h]
  · intro h hne; simp [form_result_tuple, h, hne]
  · intro h heq; simp [form_result_tuple, h, heq]
  · intro st2 h
    have hs := handle_schema_ok tupdesc recv st cols st2 h
    exact ⟨hs.1, by rw [hs.2]⟩

/-- C5, witness: the theorem applied to concrete decode states — a row
before any Schema, a row with the wrong column count, and a valid row. -/
theorem claim_C5_witness :
    form_result_tuple initResultState 1 [some [1]]
      = .error (err .internalError "DataRow not preceded by RowDescription")
    ∧ form_result_tuple { initResultState with has_row_description := true } 1 []
      = .error (err .internalError "malformed DataRow")
    ∧ form_result_tuple { initResultState with has_row_description := true } 1 [none]
      = .ok (.data [none]) := by
  have h1 := claim_C5_theorem initResultState [TEXTOID] (fun _ => true) [some [1]] []
  have h2 := claim_C5_theorem { initResultState with has_row_description := true }
    [TEXTOID] (fun _ => true) [] []
  have h3 := claim_C5_theorem { initResultState with has_row_description := true }
    [TEXTOID] (fun _ => true) [none] []
  exact ⟨h1.1 rfl, h2.2.1 rfl (by decide), h3.2.2.1 rfl rfl⟩

/-! ## Claim C6 -/

theorem clamp_grace_bounds (g : Int) :
    0 ≤ clamp_grace g ∧ clamp_grace g ≤ PGBG_GRACE_MS_MAX
      ∧ (0 ≤ g → g ≤ PGBG_GRACE_MS_MAX → clamp_grace g = g) := by
  unfold clamp_grace PGBG_GRACE_MS_MAX
  split_ifs <;> refine ⟨by omega, by omega, by omega⟩

/-- C6: a cancel-with-grace call on a registered task with matching
cookie (i) emits the canceled-bookkeeping write, the shared
cancel-requested flag write and the SIGTERM, in that order, before any
polling; (ii) uses the requested grace clamped to [0 ms, 3600000 ms],
exactly the request when already in range; (iii) sleeps between polls
following the exponential-backoff schedule min(1000·2^k, 100000) µs
(1 ms doubling, capped at 100 ms), each sleep further capped to the
remaining grace time; and (iv) sends SIGKILL only if every poll up to
grace expiry reported the worker still running and the last observed
elapsed time reached the grace period. -/
theorem claim_C6_theorem (reg : Registry) (caller : Caller) (pid : Int)
    (cookie_in : Int) (grace_ms : Int) (o : CancelOracle) (fuel : Nat)
    (info : WorkerInfo) (reg2 : Registry) (tr : List CancelAction)
    (hfind : find_worker_info reg pid = some info)
    (hpriv : caller.hasPrivsOf info.current_user_id = true)
    (hck : info.cookie = uint64_of_int cookie_in)
    (hseg : info.hasSeg = true)
    (hhandle : info.hasHandle = true)
    (hpid : 0 < info.pid)
    (hrun : pg_background_cancel_v2_grace_call reg caller pid cookie_in grace_ms o fuel
      = .ok (reg2, some tr)) :
    (0 ≤ clamp_grace grace_ms ∧ clamp_grace grace_ms ≤ PGBG_GRACE_MS_MAX
      ∧ (0 ≤ grace_ms → grace_ms ≤ PGBG_GRACE_MS_MAX → clamp_grace grace_ms = grace_ms))
    ∧ (∃ rest, tr = CancelAction.setCanceledFlag :: CancelAction.setCancelRequested ::
        CancelAction.sigterm :: rest)
    ∧ (∀ k, backoff_intervals k = min (1000 * 2 ^ k) 100000)
    ∧ (∃ n, traceSleeps tr = (natRange 0 n).map (fun j =>
        min (min (1000 * 2 ^ j) 100000)
          (((clamp_grace grace_ms).toNat - o.elapsedAt j) * 1000)))
    ∧ (CancelAction.sigkill ∈ tr →
        ∃ m, (∀ j, j ≤ m → o.stoppedAt j = false)
          ∧ (clamp_grace grace_ms).toNat ≤ o.elapsedAt m) := by
  refine ⟨clamp_grace_bounds grace_ms, ?_⟩
  simp only [pg_background_cancel_v2_grace_call, hfind, hpriv, hck, hseg,
    Bool.not_true, Bool.false_eq_true, if_false, ne_eq, not_true_eq_false, if_true] at hrun
  cases hsig : pgbg_send_cancel_signals o info.hasHandle info.pid (clamp_grace grace_ms)
      fuel with
  | none =>
      rw [hsig] at hrun
      simp at hrun
  | some sigtr =>
      rw [hsig] at hrun
      simp only [Except.ok.injEq, Prod.mk.injEq, Option.some.injEq] at hrun
      have htr : tr = CancelAction.setCanceledFlag :: CancelAction.setCancelRequested ::
          sigtr := by
        rw [← hrun.2]
        rfl
      rw [hhandle] at hsig
      unfold pgbg_send_cancel_signals at hsig
      rw [if_pos hpid] at hsig
      rcases le_or_lt (clamp_grace grace_ms) 0 with hg | hg
      · rw [if_pos (Or.inl hg)] at hsig
        have hsigtr : sigtr = [CancelAction.sigterm] := by
          simpa using hsig.symm
        subst hsigtr
        subst htr
        refine ⟨⟨[], rfl⟩, backoff_intervals_closed, ⟨0, rfl⟩, ?_⟩
        intro hk
        simp at hk
      · rw [if_neg (by simp; omega)] at hsig
        cases hloop : cancel_poll_loop o info.pid (clamp_grace grace_ms).toNat fuel 0
            PGBG_POLL_INTERVAL_MIN_US with
        | none => rw [hloop] at hsig; exact Option.noConfusion hsig
        | some ltr =>
            rw [hloop] at hsig
            simp only [Option.some.injEq] at hsig
            have hsigtr : sigtr = CancelAction.sigterm :: ltr := by rw [← hsig]; rfl
            subst hsigtr
            subst htr
            rw [show (PGBG_POLL_INTERVAL_MIN_US : Nat) = backoff_intervals 0 from rfl]
              at hloop
            refine ⟨⟨ltr, rfl⟩, backoff_intervals_closed, ?_, ?_⟩
            · obtain ⟨n, hn⟩ := cancel_poll_loop_sleeps o info.pid
                (clamp_grace grace_ms).toNat fuel 0 ltr hloop
              refine ⟨n, ?_⟩
              have hts : traceSleeps (CancelAction.setCanceledFlag ::
                  CancelAction.setCancelRequested :: CancelAction.sigterm :: ltr)
                  = traceSleeps ltr := rfl
              rw [hts, hn]
              simp only [backoff_intervals_closed]
            · intro hk
              have hk2 : CancelAction.sigkill ∈ ltr := by simpa using hk
              obtain ⟨m, _, hm2, hm3⟩ := cancel_poll_loop_kill o info.pid
                (clamp_grace grace_ms).toNat fuel 0 _ ltr hloop hk2
              exact ⟨m, fun j hj => hm2 j (Nat.zero_le j) hj, hm3⟩

/-- A cancel oracle for the C6 witness: the worker stops at the second
poll; the clock advances 30 ms per poll. -/
def o6 : CancelOracle := ⟨fun k => decide (1 ≤ k), fun k => 30 * k⟩

/-- The trace produced by the C6 witness run. -/
def tr6 : List CancelAction :=
  [CancelAction.setCanceledFlag, CancelAction.setCancelRequested, CancelAction.sigterm,
   CancelAction.poll false, CancelAction.sleep 1000, CancelAction.poll true]

/-- C6, witness: the theorem applied to a concrete cancel-with-grace run
(grace 50 ms, worker exits at the second poll): the flag/SIGTERM prefix,
the 1 ms first sleep, and no SIGKILL. -/
theorem claim_C6_witness :
    (0 ≤ clamp_grace 50 ∧ clamp_grace 50 ≤ PGBG_GRACE_MS_MAX
      ∧ (0 ≤ (50 : Int) → (50 : Int) ≤ PGBG_GRACE_MS_MAX → clamp_grace 50 = 50))
    ∧ (∃ rest, tr6 = CancelAction.setCanceledFlag :: CancelAction.setCancelRequested ::
        CancelAction.sigterm :: rest)
    ∧ (∀ k, backoff_intervals k = min (1000 * 2 ^ k) 100000)
    ∧ (∃ n, traceSleeps tr6 = (natRange 0 n).map (fun j =>
        min (min (1000 * 2 ^ j) 100000) (((clamp_grace 50).toNat - o6.elapsedAt j) * 1000)))
    ∧ (CancelAction.sigkill ∈ tr6 →
        ∃ m, (∀ j, j ≤ m → o6.stoppedAt j = false)
          ∧ (clamp_grace 50).toNat ≤ o6.elapsedAt m) :=
  claim_C6_theorem [wi0] caller0 100 5 50 o6 5 wi0 [{ wi0 with canceled := true }] tr6
    rfl rfl (by decide) rfl rfl (by decide) rfl

/-! ## Claims C7 and C9: launcher admission checks -/

theorem save_worker_info_ok (reg : Registry) (u : Nat) (pid : Int) (cookie : Nat)
    (rd : Bool) (qs : Int) (pv : String) (reg1 : Registry) (acts : List SaveAction)
    (h : save_worker_info reg u pid cookie rd qs pv = .ok (reg1, acts)) :
    reg1 = mk_worker_info pid u cookie rd qs pv :: registry_erase reg pid := by
  unfold save_worker_info at h
  cases hf : find_worker_info reg pid with
  | none =>
      rw [hf] at h
      simp only [Except.ok.injEq, Prod.mk.injEq] at h
      exact h.1.symm
  | some old =>
      rw [hf] at h
      dsimp only at h
      split_ifs at h
      all_goals first
        | exact Except.noConfusion h
        | (simp only [Except.ok.injEq, Prod.mk.injEq] at h; exact h.1.symm)

theorem save_worker_info_error_code (reg : Registry) (u : Nat) (pid : Int) (cookie : Nat)
    (rd : Bool) (qs : Int) (pv : String) (e : PgError)
    (h : save_worker_info reg u pid cookie rd qs pv = .error e) :
    e = ⟨.duplicateObject, FATAL_LEVEL, msg_worker_exists pid⟩ := by
  unfold save_worker_info at h
  cases hf : find_worker_info reg pid with
  | none => rw [hf] at h; exact Except.noConfusion h
  | some old =>
      rw [hf] at h
      dsimp only at h
      split_ifs at h
      all_goals first
        | exact Except.noConfusion h
        | (simp only [Except.error.injEq] at h; exact h.symm)

/-- C7, counterexample: with the admission table already full
(max_workers = 1, one registered worker), a launch with queue capacity 1
fails with the InvalidArgument-style queue-size error, not with the
ResourceExhausted-style admission error, because the capacity checks
come first — refuting "every launch/submit attempt fails with a
ResourceExhausted error" as stated. -/
theorem claim_C7_counterexample :
    launch_internal ⟨88, 1, 65536⟩ ⟨true, true, .started, 200⟩ [wi0] 10 "SELECT 1" 1 7 false
      = .error (err .invalidParameterValue "queue size must be at least 88 bytes")
    ∧ ErrCode.invalidParameterValue ≠ ErrCode.configurationLimitExceeded :=
  ⟨rfl, by decide⟩

/-- C7 (amended): the registry never exceeds the configured maximum.
When the table already holds max_workers entries, every launch/submit
attempt fails — with the ResourceExhausted-style admission error when
the queue-capacity validation passes (with the InvalidArgument capacity
error otherwise) — and no entry is added (an error returns the registry
unchanged).  A successful launch requires the table to have been below
the limit and grows it by at most one entry, and the result/detach/
cancel operations never grow the table. -/
theorem claim_C7_theorem (cfg : LaunchConfig) (o : LaunchOracle) (reg : Registry)
    (u : Nat) (sql : String) (qs : Int) (cookie : Nat) (rd : Bool)
    (hmax : 1 ≤ cfg.max_workers) :
    (cfg.shm_mq_minimum_size ≤ uint64_of_int (if qs ≤ 0 then cfg.default_queue_size else qs) →
      (if qs ≤ 0 then cfg.default_queue_size else qs) ≤ PGBG_QUEUE_SIZE_MAX →
      cfg.max_workers ≤ reg.length →
      launch_internal cfg o reg u sql qs cookie rd
        = .error (err .configurationLimitExceeded "too many background workers"))
    ∧ (cfg.max_workers ≤ reg.length →
        ∃ e, launch_internal cfg o reg u sql qs cookie rd = .error e)
    ∧ (∀ reg2 p, launch_internal cfg o reg u sql qs cookie rd = .ok (reg2, p) →
        reg.length < cfg.max_workers ∧ reg2.length ≤ reg.length + 1)
    ∧ (∀ caller pid tupdesc recv frames,
        ((pg_background_result_call reg caller pid tupdesc recv frames).2).length
          ≤ reg.length)
    ∧ (∀ caller pid ck reg3, pg_background_detach_v2_call reg caller pid ck = .ok reg3 →
        reg3.length ≤ reg.length)
    ∧ (∀ caller pid ck o2 fl reg3 tr,
        pg_background_cancel_v2_call reg caller pid ck o2 fl = .ok (reg3, tr) →
        reg3.length = reg.length) := by
  refine ⟨?_, ?_, ?_, ?_, ?_, ?_⟩
  · intro hfloor hceil hfull
    simp only [launch_internal]
    rw [if_neg (not_lt.mpr hfloor), if_neg (not_lt.mpr hceil), if_pos ⟨by omega, hfull⟩]
  · intro hfull
    simp only [launch_internal]
    split_ifs
    any_goals exact ⟨_, rfl⟩
    all_goals omega
  · intro reg2 p h
    simp only [launch_internal] at h
    set qs2 := if qs ≤ 0 then cfg.default_queue_size else qs with hqs2
    split_ifs at h with h1 h2 h3 h4 h5 h6 h7
    have hlt : reg.length < cfg.max_workers := by omega
    refine ⟨hlt, ?_⟩
    cases hsv : save_worker_info reg u o.workerPid cookie rd qs2 (sql_preview_of sql) with
    | error e => rw [hsv] at h; exact Except.noConfusion h
    | ok pr =>
        rw [hsv] at h
        simp only [Except.ok.injEq, Prod.mk.injEq] at h
        have hr1 := save_worker_info_ok _ _ _ _ _ _ _ _ _ hsv
        have hlen := registry_erase_length_le reg o.workerPid
        calc reg2.length = (registry_update pr.1 o.workerPid
              (fun i => { i with mapping_pinned := true })).length := by rw [← h.1]
          _ = pr.1.length := registry_update_length _ _ _
          _ = (mk_worker_info o.workerPid u cookie rd qs2
                (sql_preview_of sql) :: registry_erase reg o.workerPid).length := by
                rw [hr1]
          _ ≤ reg.length + 1 := by simp [List.length_cons]; omega
  · intro caller pid tupdesc recv frames
    simp only [pg_background_result_call]
    cases hf : find_worker_info reg pid with
    | none => exact le_refl _
    | some info =>
        dsimp only
        split_ifs
        any_goals exact le_refl _
        simp only [result_call_drain]
        cases hfin : result_stream_final pid tupdesc
            (processFrames tupdesc recv initResultState frames) with
        | error e =>
            cases hse : (processFrames tupdesc recv initResultState frames).st.stored_error
            · exact le_trans (registry_erase_length_le _ _)
                (le_of_eq (registry_update_length _ _ _))
            · exact le_trans (registry_erase_length_le _ _)
                (le_of_eq (by rw [registry_update_length, registry_update_length]))
        | ok rows =>
            cases hse : (processFrames tupdesc recv initResultState frames).st.stored_error
            · exact le_trans (registry_erase_length_le _ _)
                (le_of_eq (registry_update_length _ _ _))
            · exact le_trans (registry_erase_length_le _ _)
                (le_of_eq (by rw [registry_update_length, registry_update_length]))
  · intro caller pid ck reg3 h
    simp only [pg_background_detach_v2_call] at h
    cases hf : find_worker_info reg pid with
    | none => rw [hf] at h; exact Except.noConfusion h
    | some info =>
        rw [hf] at h
        dsimp only at h
        split_ifs at h
        all_goals first
          | exact Except.noConfusion h
          | (simp only [Except.ok.injEq] at h; rw [← h];
             exact registry_erase_length_le _ _)
          | (simp only [Except.ok.injEq] at h; rw [← h])
  · intro caller pid ck o2 fl reg3 tr h
    simp only [pg_background_cancel_v2_call] at h
    cases hf : find_worker_info reg pid with
    | none => rw [hf] at h; exact Except.noConfusion h
    | some info =>
        rw [hf] at h
        dsimp only at h
        split_ifs at h
        all_goals first
          | exact Except.noConfusion h
          | (cases hsig : pgbg_send_cancel_signals o2 info.hasHandle info.pid 0 fl with
             | none =>
                 rw [hsig] at h
                 simp only [Except.ok.injEq, Prod.mk.injEq] at h
                 rw [← h.1]
                 exact registry_update_length _ _ _
             | some sigtr =>
                 rw [hsig] at h
                 simp only [Except.ok.injEq, Prod.mk.injEq] at h
                 rw [← h.1]
                 exact registry_update_length _ _ _)

/-- C7, witness: the amended theorem at a full one-slot table — the
launch fails with the admission error and a successful launch from an
empty table yields one entry. -/
theorem claim_C7_witness :
    launch_internal ⟨88, 1, 65536⟩ ⟨true, true, .started, 200⟩ [wi0] 10 "SELECT 1" 4096 7
        false = .error (err .configurationLimitExceeded "too many background workers") := by
  exact (claim_C7_theorem ⟨88, 1, 65536⟩ ⟨true, true, .started, 200⟩ [wi0] 10 "SELECT 1"
    4096 7 false (by decide)).1 (by decide) (by decide) (by decide)

/-- C9, counterexample: a requested queue capacity of 0 is below the
protocol floor (shm_mq_minimum_size = 88 here) yet launch does NOT fail
with InvalidArgument — the request is silently replaced by the
configured default (65536) and the launch succeeds — refuting "fails
whenever the requested capacity is below the floor" as stated. -/
theorem claim_C9_counterexample :
    launch_internal ⟨88, 16, 65536⟩ ⟨true, true, .started, 200⟩ [] 10 "SELECT 1" 0 7 false
      = .ok ([{ mk_worker_info 200 10 7 false 65536 "SELECT 1" with
          mapping_pinned := true }], 200)
    ∧ uint64_of_int 0 < 88 :=
  ⟨rfl, by decide⟩

/-- C9 (amended): for a positive requested capacity, channel creation
fails with the InvalidArgument queue-size error exactly when the
capacity is below shm_mq_minimum_size (as a uint64) or above the 256 MB
ceiling, and otherwise never fails with an InvalidArgument error; a
non-positive requested capacity is not rejected but replaced by the
configured default queue size. -/
theorem claim_C9_theorem (cfg : LaunchConfig) (o : LaunchOracle) (reg : Registry)
    (u : Nat) (sql : String) (qs : Int) (cookie : Nat) (rd : Bool) :
    (0 < qs → uint64_of_int qs < cfg.shm_mq_minimum_size →
      launch_internal cfg o reg u sql qs cookie rd
        = .error (err .invalidParameterValue
            s!"queue size must be at least {cfg.shm_mq_minimum_size} bytes"))
    ∧ (0 < qs → cfg.shm_mq_minimum_size ≤ uint64_of_int qs → PGBG_QUEUE_SIZE_MAX < qs →
      launch_internal cfg o reg u sql qs cookie rd
        = .error (err .invalidParameterValue
            s!"queue size must not exceed {PGBG_QUEUE_SIZE_MAX} bytes"))
    ∧ (0 < qs → cfg.shm_mq_minimum_size ≤ uint64_of_int qs → qs ≤ PGBG_QUEUE_SIZE_MAX →
        ∀ e, launch_internal cfg o reg u sql qs cookie rd = .error e →
          e.code ≠ .invalidParameterValue)
    ∧ (qs ≤ 0 → launch_internal cfg o reg u sql qs cookie rd
        = launch_internal cfg o reg u sql cfg.default_queue_size cookie rd) := by
  refine ⟨?_, ?_, ?_, ?_⟩
  · intro hpos hfloor
    simp only [launch_internal, if_neg (by omega : ¬qs ≤ 0)]
    rw [if_pos hfloor]
  · intro hpos hfloor hceil
    simp only [launch_internal, if_neg (by omega : ¬qs ≤ 0)]
    rw [if_neg (not_lt.mpr hfloor), if_pos hceil]
  · intro hpos hfloor hceil e h
    simp only [launch_internal, if_neg (by omega : ¬qs ≤ 0)] at h
    rw [if_neg (not_lt.mpr hfloor), if_neg (not_lt.mpr hceil)] at h
    split_ifs at h with h3 h4 h5 h6 h7
    all_goals try (simp only [Except.error.injEq] at h; rw [← h]; simp [err])
    cases hsv : save_worker_info reg u o.workerPid cookie rd qs (sql_preview_of sql) with
    | error e2 =>
        rw [hsv] at h
        simp only [Except.error.injEq] at h
        have he2 := save_worker_info_error_code _ _ _ _ _ _ _ _ hsv
        rw [← h, he2]
        simp
    | ok pr =>
        rw [hsv] at h
        exact Except.noConfusion h
  · intro hqs
    simp only [launch_internal, if_pos hqs, ite_self]

/-- C9, witness: the amended theorem at concrete capacities — 4 bytes is
rejected as too small, 300 MB as too large, and 64 KB passes the check
(the run from an empty table succeeds, so no InvalidArgument error). -/
theorem claim_C9_witness :
    launch_internal ⟨88, 16, 65536⟩ ⟨true, true, .started, 200⟩ [] 10 "SELECT 1" 4 7 false
      = .error (err .invalidParameterValue "queue size must be at least 88 bytes")
    ∧ launch_internal ⟨88, 16, 65536⟩ ⟨true, true, .started, 200⟩ [] 10 "SELECT 1"
        314572800 7 false
      = .error (err .invalidParameterValue "queue size must not exceed 268435456 bytes")
    ∧ launch_internal ⟨88, 16, 65536⟩ ⟨true, true, .started, 200⟩ [] 10 "SELECT 1" 0 7 false
      = launch_internal ⟨88, 16, 65536⟩ ⟨true, true, .started, 200⟩ [] 10 "SELECT 1" 65536
          7 false := by
  have h := claim_C9_theorem ⟨88, 16, 65536⟩ ⟨true, true, .started, 200⟩ [] 10 "SELECT 1"
    4 7 false
  have h2 := claim_C9_theorem ⟨88, 16, 65536⟩ ⟨true, true, .started, 200⟩ [] 10 "SELECT 1"
    314572800 7 false
  have h3 := claim_C9_theorem ⟨88, 16, 65536⟩ ⟨true, true, .started, 200⟩ [] 10 "SELECT 1"
    0 7 false
  exact ⟨h.1 (by decide) (by decide), h2.2.1 (by decide) (by decide) (by decide),
    h3.2.2.2 (by decide)⟩

/-! ## Claim C8 -/

/-- C10: `get_progress_v2` raises only through the permission check —
every error it returns is the permission-denied error on a found entry
whose owner the caller lacks privileges over; an unknown pid, a cookie
mismatch, a detached segment, an inaccessible TOC and a
not-yet-reported percentage (still -1) all return NULL; and any
percentage it does return lies in [0, 100], because
`pg_background_progress` clamps before publishing and the initial value
is -1. -/
theorem claim_C10_theorem (reg : Registry) (caller : Caller) (pid : Int)
    (cookie_in : Int) (tocOk : Bool) (rec : ProgressRecord)
    (hreach : ProgressReachable rec) :
    (∀ e, pg_background_get_progress_v2_call reg caller pid cookie_in tocOk rec
        = .error e →
      ∃ info, find_worker_info reg pid = some info
        ∧ caller.hasPrivsOf info.current_user_id = false
        ∧ e = perm_denied_error info.pid)
    ∧ (find_worker_info reg pid = none →
        pg_background_get_progress_v2_call reg caller pid cookie_in tocOk rec = .ok none)
    ∧ (∀ info, find_worker_info reg pid = some info →
        caller.hasPrivsOf info.current_user_id = true →
        info.cookie ≠ uint64_of_int cookie_in →
        pg_background_get_progress_v2_call reg caller pid cookie_in tocOk rec = .ok none)
    ∧ (∀ info, find_worker_info reg pid = some info →
        caller.hasPrivsOf info.current_user_id = true →
        info.hasSeg = false →
        pg_background_get_progress_v2_call reg caller pid cookie_in tocOk rec = .ok none)
    ∧ (rec.pct < 0 → ∀ info, find_worker_info reg pid = some info →
        caller.hasPrivsOf info.current_user_id = true →
        pg_background_get_progress_v2_call reg caller pid cookie_in tocOk rec = .ok none)
    ∧ (∀ p m, pg_background_get_progress_v2_call reg caller pid cookie_in tocOk rec
        = .ok (some (p, m)) → 0 ≤ p ∧ p ≤ 100) := by
  refine ⟨?_, ?_, ?_, ?_, ?_, ?_⟩
  · intro e h
    simp only [pg_background_get_progress_v2_call] at h
    cases hf : find_worker_info reg pid with
    | none => rw [hf] at h; exact Except.noConfusion h
    | some info =>
        rw [hf] at h
        dsimp only at h
        by_cases hp : caller.hasPrivsOf info.current_user_id
        · rw [if_neg (by simp [hp])] at h
          split_ifs at h
        · have hp2 : caller.hasPrivsOf info.current_user_id = false := by
            simpa using hp
          rw [if_pos (by simp [hp2])] at h
          simp only [Except.error.injEq] at h
          exact ⟨info, rfl, hp2, h.symm⟩
  · intro hf
    simp [pg_background_get_progress_v2_call, hf]
  · intro info hf hp hck
    simp [pg_background_get_progress_v2_call, hf, hp, hck]
  · intro info hf hp hseg
    simp [pg_background_get_progress_v2_call, hf, hp, hseg]
  · intro hpct info hf hp
    simp [pg_background_get_progress_v2_call, hf, hp, hpct]
  · intro p m h
    simp only [pg_background_get_progress_v2_call] at h
    cases hf : find_worker_info reg pid with
    | none => rw [hf] at h; simp at h
    | some info =>
        rw [hf] at h
        dsimp only at h
        split_ifs at h
        all_goals first
          | exact Except.noConfusion h
          | (simp only [Except.ok.injEq] at h; exact Option.noConfusion h)
          | (simp only [Except.ok.injEq, Option.some.injEq, Prod.mk.injEq] at h
             obtain ⟨hp1, -⟩ := h
             rcases progress_reachable_bounds rec hreach with hneg | hb
             · omega
             · constructor <;> omega)

/-- C10, witness: the theorem applied concretely — a worker that
reported 150% "halfway" is clamped to 100 and read back as (100,
"halfway"); the same read against an empty registry returns NULL. -/
theorem claim_C10_witness :
    pg_background_get_progress_v2_call [wi0] caller0 100 5 true ⟨100, "halfway"⟩
      = .ok (some (100, "halfway"))
    ∧ (0 ≤ (100 : Int) ∧ (100 : Int) ≤ 100)
    ∧ pg_background_get_progress_v2_call [] caller0 100 5 true ⟨100, "halfway"⟩
      = .ok none := by
  have hreach : ProgressReachable ⟨100, "halfway"⟩ :=
    ProgressReachable.report 150 (some "halfway") ⟨100, "halfway"⟩ rfl
  have h := claim_C10_theorem [wi0] caller0 100 5 true ⟨100, "halfway"⟩ hreach
  have h2 := claim_C10_theorem [] caller0 100 5 true ⟨100, "halfway"⟩ hreach
  exact ⟨rfl, h.2.2.2.2.2 100 "halfway" rfl, h2.2.1 rfl⟩

end PgBg
